import Mathlib

/-!
Verification of the plant-doctor backend's label-reconciliation pipeline.

The development shallowly embeds the TypeScript sources:
* `src/models/disease.model.ts` (taxonomy, treatments, label formatting),
* `src/services/huggingface.service.ts` (label matcher, plant validator's
  non-plant rejection step, inference-client retry loop, and the
  post-classification disease processing),
* `src/controllers/prediction.controller.ts` (selection of the persisted
  disease record).

Strings are Lean `String`s; the JavaScript string primitives used by the code
(`toLowerCase`, `includes`, `split`, `replace`, `trim`, the few regexes) are
reimplemented below on `List Char` with JavaScript semantics at the call sites
(all inputs are ASCII).  Scores are rationals (`ℚ`): the code only constructs
decimal literals and compares them, which the embedding mirrors exactly.
-/

namespace PlantDoctor

/-! ## JavaScript string primitives -/

/-- JS `String.prototype.toLowerCase` (ASCII inputs: identical to a
per-character lower-casing). -/
def lowerStr (s : String) : String := ⟨s.data.map Char.toLower⟩

/-- Substring test over char lists: does `hay` contain `needle`?
JS `hay.includes(needle)` (an empty needle is contained in everything). -/
def charsContains (needle : List Char) : List Char → Bool
  | [] => needle.isEmpty
  | c :: rest => needle.isPrefixOf (c :: rest) || charsContains needle rest

/-- JS `hay.includes(needle)`. -/
def strContains (hay needle : String) : Bool := charsContains needle.data hay.data

/-- JS `String.prototype.startsWith`. -/
def strStartsWith (s p : String) : Bool := p.data.isPrefixOf s.data

/-- Splitting worker: `acc` holds the current piece reversed.  Mirrors the
left-to-right, non-overlapping scan of JS `String.prototype.split` with a
non-empty string separator.  `fuel` only bounds the recursion structurally
(so that the kernel can evaluate the definition); every step consumes at
least one character, so `fuel = length` never runs out and the `0` clause is
unreachable from `splitOnStr`. -/
def splitOnAux (sep : List Char) : Nat → List Char → List Char → List (List Char)
  | _, acc, [] => [acc.reverse]
  | 0, acc, l => [acc.reverse ++ l]
  | fuel + 1, acc, c :: rest =>
    if sep.isPrefixOf (c :: rest) then
      acc.reverse :: splitOnAux sep fuel [] (rest.drop (sep.length - 1))
    else
      splitOnAux sep fuel (c :: acc) rest

/-- JS `s.split(sep)` for a non-empty string separator (every use in the
sources passes a non-empty separator). -/
def splitOnStr (s sep : String) : List String :=
  (splitOnAux sep.data s.data.length [] s.data).map (fun l => ⟨l⟩)

/-- JS `s.replace(pat, rep)` with a plain-string pattern: replace the first
occurrence only. -/
def replaceFirstChars (pat rep : List Char) : List Char → List Char
  | [] => if pat.isEmpty then rep else []
  | c :: rest =>
    if pat.isPrefixOf (c :: rest) then rep ++ (c :: rest).drop pat.length
    else c :: replaceFirstChars pat rep rest

/-- JS `s.replace(pat, rep)` (first occurrence). -/
def replaceFirstStr (s pat rep : String) : String :=
  ⟨replaceFirstChars pat.data rep.data s.data⟩

/-- The whitespace class relevant here (JS `\s` / `trim` on ASCII text). -/
def jsWhitespace (c : Char) : Bool :=
  c = ' ' || c = '\t' || c = '\n' || c = '\r' || c = '\x0b' || c = '\x0c'

/-- JS `String.prototype.trim` (ASCII whitespace). -/
def jsTrim (s : String) : String :=
  ⟨((s.data.dropWhile (jsWhitespace ·)).reverse.dropWhile (jsWhitespace ·)).reverse⟩

/-- JS truthiness of a string (`""` is falsy): `s || dflt`. -/
def jsOrStr (s dflt : String) : String := if s = "" then dflt else s

/-- JS `o || dflt` for a possibly-undefined string. -/
def jsOrOptStr (o : Option String) (dflt : String) : String :=
  match o with
  | some s => jsOrStr s dflt
  | none => dflt

/-! ## Taxonomy: `src/models/disease.model.ts` -/

/-- `DISEASE_LABELS`: the canonical labels of the supported taxonomy. -/
def DISEASE_LABELS : List String := [
  "Apple___Apple_scab",
  "Apple___Black_rot",
  "Apple___Cedar_apple_rust",
  "Apple___healthy",
  "Blueberry___healthy",
  "Cherry___healthy",
  "Cherry___Powdery_mildew",
  "Corn___Cercospora_leaf_spot Gray_leaf_spot",
  "Corn___Common_rust",
  "Corn___healthy",
  "Corn___Northern_Leaf_Blight",
  "Grape___Black_rot",
  "Grape___Esca_(Black_Measles)",
  "Grape___healthy",
  "Grape___Leaf_blight_(Isariopsis_Leaf_Spot)",
  "Orange___Haunglongbing_(Citrus_greening)",
  "Peach___Bacterial_spot",
  "Peach___healthy",
  "Pepper,_bell___Bacterial_spot",
  "Pepper,_bell___healthy",
  "Potato___Early_blight",
  "Potato___healthy",
  "Potato___Late_blight",
  "Raspberry___healthy",
  "Soybean___healthy",
  "Squash___Powdery_mildew",
  "Strawberry___healthy",
  "Strawberry___Leaf_scorch",
  "Tomato___Bacterial_spot",
  "Tomato___Early_blight",
  "Tomato___healthy",
  "Tomato___Late_blight",
  "Tomato___Leaf_Mold",
  "Tomato___Septoria_leaf_spot",
  "Tomato___Spider_mites Two-spotted_spider_mite",
  "Tomato___Target_Spot",
  "Tomato___Tomato_mosaic_virus",
  "Tomato___Tomato_Yellow_Leaf_Curl_Virus"]

/-- `isValidDiseaseLabel`: JS `DISEASE_LABELS.includes(disease)` (strict
string equality). -/
def isValidDiseaseLabel (disease : String) : Bool := DISEASE_LABELS.contains disease

/-- `TREATMENTS`: treatment text per canonical label (JS object literal,
modelled as an association list; JS property lookup is exact-key). -/
def TREATMENTS : List (String × String) := [
  ("Apple___Apple_scab",
    "Apply fungicides preventatively in early spring before infection occurs. Remove and destroy fallen leaves to reduce fungal inoculum. Prune trees to improve air circulation. Select resistant apple varieties when planting new trees. Apply lime sulfur during dormant season."),
  ("Apple___Black_rot",
    "Prune out dead or diseased wood and remove mummified fruits. Apply fungicides during bud break and early growing season. Maintain tree vigor through proper fertilization and watering. Clean up fallen fruit and leaves around the tree. Ensure proper spacing between trees for adequate air circulation."),
  ("Apple___Cedar_apple_rust",
    "Remove nearby juniper/cedar trees if possible (alternate hosts). Apply preventative fungicides starting at pink bud stage. Select resistant apple varieties. Continue fungicide applications every 7-10 days during spring season. Avoid overhead irrigation to reduce leaf wetness periods."),
  ("Apple___healthy",
    "Regular pruning to maintain tree structure and air flow. Balanced fertilization program based on soil test results. Proper watering, avoiding overwatering. Regular monitoring for early signs of pests and diseases. Mulch around trees (keeping mulch away from trunk)."),
  ("Blueberry___healthy",
    "Maintain soil pH between 4.5-5.5. Apply acidic mulch like pine needles or sawdust. Provide adequate spacing between plants. Prune annually to remove old canes and maintain productivity. Follow recommended fertilization schedule for blueberries."),
  ("Cherry___Powdery_mildew",
    "Apply fungicides at first sign of infection. Prune to improve air circulation. Apply potassium bicarbonate or sulfur-based products. Avoid excessive nitrogen fertilization. Remove and destroy infected plant parts."),
  ("Cherry___healthy",
    "Regular pruning during dormant season. Balanced fertilization program. Adequate irrigation, particularly during fruit development. Monitor for signs of pests and diseases. Apply dormant oil spray to control overwintering pests."),
  ("Corn___Cercospora_leaf_spot Gray_leaf_spot",
    "Plant resistant hybrids. Crop rotation with non-host crops. Fungicide applications at early tasseling stage. Tillage to reduce crop residue when appropriate. Avoid late planting dates."),
  ("Corn___Common_rust",
    "Plant resistant corn varieties. Early planting to avoid peak rust season. Apply foliar fungicides when disease pressure is high. Monitor fields regularly during growing season. Balanced fertilization to promote plant health."),
  ("Corn___Northern_Leaf_Blight",
    "Plant resistant hybrids. Crop rotation with non-host crops. Apply fungicides when disease first appears. Proper field drainage. Avoid excessive nitrogen application."),
  ("Corn___healthy",
    "Proper seed spacing and planting depth. Regular soil testing and balanced fertilization. Timely irrigation during critical growth stages. Weed management to reduce competition. Scout regularly for early detection of issues."),
  ("Grape___Black_rot",
    "Apply fungicides starting at bud break. Remove mummified berries and infected leaves. Prune to improve air circulation. Control weeds around vines. Clean up fallen debris after harvest."),
  ("Grape___Esca_(Black_Measles)",
    "No effective chemical treatments for established infections. Remove and destroy infected vines. Protect pruning cuts with fungicide paste. Avoid pruning during wet weather. Maintain vine vigor with proper nutrition."),
  ("Grape___Leaf_blight_(Isariopsis_Leaf_Spot)",
    "Apply protective fungicides early in the growing season. Improve air circulation through canopy management. Avoid overhead irrigation. Remove infected leaves. Maintain balanced nutrition."),
  ("Grape___healthy",
    "Regular pruning for proper canopy management. Balanced fertilization based on soil tests. Water management to avoid drought stress. Weed control around vines. Regular monitoring for early disease detection."),
  ("Orange___Haunglongbing_(Citrus_greening)",
    "No cure currently available; management practices focus on prevention. Control Asian citrus psyllid (vector) with approved insecticides. Remove and destroy infected trees to prevent spread. Plant disease-free certified nursery stock. Maintain tree vigor through proper nutrition and irrigation."),
  ("Peach___Bacterial_spot",
    "Apply copper-based bactericides during dormant season. Continue applications during early growing season. Plant resistant varieties. Prune during dry weather to reduce spread. Avoid overhead irrigation."),
  ("Peach___healthy",
    "Annual pruning to maintain open canopy. Regular fertilization program based on soil tests. Thin fruit to improve size and quality. Apply dormant sprays for pest control. Monitor for signs of disease and pest issues."),
  ("Pepper,_bell___Bacterial_spot",
    "Apply copper-based bactericides early in the season. Crop rotation (3-4 year cycle). Use disease-free seed and transplants. Avoid working in fields when plants are wet. Remove and destroy infected plants."),
  ("Pepper,_bell___healthy",
    "Regular balanced fertilization. Consistent watering, avoiding leaf wetness. Mulch to maintain soil moisture and reduce weeds. Support plants with stakes or cages. Monitor for pests and diseases regularly."),
  ("Potato___Early_blight",
    "Apply fungicides preventatively before disease appears. Practice crop rotation (3-4 year cycle). Plant certified disease-free seed potatoes. Proper hilling to cover tubers adequately. Avoid overhead irrigation."),
  ("Potato___Late_blight",
    "Apply protective fungicides before disease appears. Monitor weather conditions for blight-favorable periods. Destroy volunteer potatoes and nightshade weeds. Plant certified disease-free seed potatoes. Increase plant spacing to improve air circulation."),
  ("Potato___healthy",
    "Plant certified seed potatoes. Proper hilling during growth. Regular balanced fertilization. Adequate irrigation, especially during tuber formation. Harvest when mature and store properly."),
  ("Raspberry___healthy",
    "Prune out old canes after fruiting. Thin new canes to improve air circulation. Apply balanced fertilization in spring. Proper trellising to keep fruit off ground. Mulch to maintain soil moisture and reduce weeds."),
  ("Soybean___healthy",
    "Crop rotation with non-legume crops. Plant high-quality seeds at proper depth and spacing. Scout fields regularly for early disease detection. Apply appropriate fertilization based on soil tests. Consider seed treatments for early season protection."),
  ("Squash___Powdery_mildew",
    "Apply fungicides at first signs of disease. Plant resistant varieties when available. Space plants properly for good air circulation. Apply potassium bicarbonate or neem oil as organic options. Avoid overhead irrigation."),
  ("Strawberry___Leaf_scorch",
    "Remove infected leaves. Apply fungicides during early growth stage. Practice crop rotation. Use drip irrigation instead of overhead watering. Plant resistant varieties when available."),
  ("Strawberry___healthy",
    "Renew plantings every 3-4 years. Apply balanced fertilization. Mulch around plants to reduce soil splashing. Provide proper spacing between plants. Remove runners as needed to maintain plant vigor."),
  ("Tomato___Bacterial_spot",
    "Apply copper-based bactericides early in the season. Practice crop rotation (3-4 year cycle). Avoid working with plants when wet. Use disease-free seed and transplants. Remove and destroy infected plants."),
  ("Tomato___Early_blight",
    "Apply fungicides preventatively. Mulch around plants to prevent soil splash. Remove lower leaves showing infection. Stake or cage plants to improve air circulation. Practice crop rotation."),
  ("Tomato___Late_blight",
    "Apply protective fungicides before disease appears. Remove and destroy infected plants immediately. Avoid overhead irrigation and working with wet plants. Increase spacing between plants. Plant resistant varieties when available."),
  ("Tomato___Leaf_Mold",
    "Improve greenhouse ventilation. Reduce humidity levels. Apply fungicides when disease pressure is high. Space plants adequately. Remove and destroy infected leaves."),
  ("Tomato___Septoria_leaf_spot",
    "Apply fungicides at first sign of disease. Practice crop rotation. Mulch around plants. Remove infected leaves. Avoid overhead irrigation."),
  ("Tomato___Spider_mites Two-spotted_spider_mite",
    "Apply miticides or insecticidal soap. Increase humidity (mites prefer dry conditions). Introduce predatory mites as biological control. Strong water spray to knock mites off plants. Remove heavily infested plants."),
  ("Tomato___Target_Spot",
    "Apply fungicides preventatively. Prune to improve air circulation. Stake plants to keep foliage off ground. Mulch around plants. Remove infected leaves."),
  ("Tomato___Tomato_mosaic_virus",
    "No cure available; prevention is key. Remove and destroy infected plants. Disinfect tools between plants. Control aphids that can spread the virus. Plant resistant varieties. Wash hands after handling tobacco products before working with tomatoes."),
  ("Tomato___Tomato_Yellow_Leaf_Curl_Virus",
    "Control whitefly vectors with appropriate insecticides. Use reflective mulch to repel whiteflies. Remove and destroy infected plants. Plant resistant varieties. Use insect netting in small gardens."),
  ("Tomato___healthy",
    "Regular balanced fertilization. Consistent watering at soil level. Proper staking or caging. Mulch around plants. Regular monitoring for early disease detection. Proper pruning to improve air circulation.")]

/-- `getDiseaseTreatment`: `TREATMENTS[disease] || "Consult with a local
agricultural extension for treatment recommendations."`. -/
def getDiseaseTreatment (disease : String) : String :=
  jsOrOptStr ((TREATMENTS.find? (fun kv => kv.1 == disease)).map (fun kv => kv.2))
    "Consult with a local agricultural extension for treatment recommendations."

/-- `capitalize`'s body applied to one word:
`word.charAt(0).toUpperCase() + word.slice(1).toLowerCase()`
(`charAt(0)` of the empty string is `""`). -/
def capitalizeWord (w : String) : String :=
  match w.data with
  | [] => ""
  | c :: rest => ⟨c.toUpper :: rest.map Char.toLower⟩

/-- `capitalize` inside `getLabel`: split on spaces, capitalize each word,
join with spaces. -/
def capitalize (s : String) : String :=
  String.intercalate " " ((splitOnStr s " ").map capitalizeWord)

/-- Worker for the regex replacement `/\(([^)]+)\)/g` with `"- $1"`: each
parenthesized group with non-empty `)`-free content becomes `"- "` followed
by the content.  `fuel` only bounds the recursion structurally; every step
consumes at least one character, so `fuel = length` never runs out. -/
def parenReplaceAux : Nat → List Char → List Char
  | _, [] => []
  | 0, l => l
  | fuel + 1, '(' :: rest =>
    let content := rest.takeWhile (fun c => c ≠ ')')
    if content.length < rest.length ∧ content ≠ [] then
      ('-' :: ' ' :: content) ++ parenReplaceAux fuel (rest.drop (content.length + 1))
    else
      '(' :: parenReplaceAux fuel rest
  | fuel + 1, c :: rest => c :: parenReplaceAux fuel rest

/-- JS `condition.replace(/\(([^)]+)\)/g, "- $1")`. -/
def parenReplaceChars (l : List Char) : List Char := parenReplaceAux l.length l

/-- `getLabel`: canonical label to human-readable form
(`src/models/disease.model.ts`). -/
def getLabel (diseaseLabel : String) : String :=
  if diseaseLabel = "" then ""
  else
    match splitOnStr diseaseLabel "___" with
    | [p0, p1] =>
      let plant0 := String.mk (p0.data.map (fun c => if c = '_' then ' ' else c))
      let condition0 := String.mk (p1.data.map (fun c => if c = '_' then ' ' else c))
      let plant1 := if plant0 = "Pepper, bell" then "Bell Pepper" else plant0
      if lowerStr condition0 = "healthy" then "Healthy " ++ plant1
      else
        let condition1 :=
          if strContains condition0 "Spider mites" then
            replaceFirstStr condition0 "Spider mites " "Spider Mites - "
          else condition0
        let condition2 := String.mk (parenReplaceChars condition1.data)
        capitalize plant1 ++ " - " ++ capitalize condition2
    | _ => diseaseLabel

/-! ## Predictions (`src/services/huggingface.service.ts`) -/

/-- `Prediction`: raw model output. `score` is the JS number, embedded as an
exact rational (the pipeline only writes decimal literals and compares). -/
structure Prediction where
  label : String
  score : ℚ
  note : Option String := none
  deriving DecidableEq, Repr

/-- `EnhancedPrediction`: prediction plus treatment data.  `confidence` and
`description` are declared optional in the interface; note that nothing in the
service ever assigns them. -/
structure EnhancedPrediction where
  label : String
  score : ℚ
  note : Option String := none
  formattedLabel : String
  treatment : Option String := none
  confidence : Option String := none
  description : Option String := none
  deriving DecidableEq, Repr

/-- `ValidationResult` of the plant validator. -/
structure ValidationResult where
  isValid : Bool
  reason : Option String := none
  plantType : Option String := none
  confidence : Option ℚ := none
  deriving DecidableEq, Repr

/-! ## Label matcher: `findClosestDiseaseLabel` -/

/-- The pepper-family terms tested by the matcher. -/
def pepperTermIn (l : String) : Bool :=
  strContains l "pepper" || strContains l "capsicum" || strContains l "chili"

/-- The bacterial-symptom keywords tested by the matcher (and by
`enhancePrediction`): `bacterial`, `spot`, `blight`, `lesion`. -/
def bacterialTermIn (l : String) : Bool :=
  strContains l "bacterial" || strContains l "spot" ||
    strContains l "blight" || strContains l "lesion"

/-- Step 5 of the matcher: find a `<plant>___healthy` canonical label whose
plant part occurs (lower-cased) inside the lower-cased input. -/
def healthyFallback (lowerLabel : String) : Option String :=
  DISEASE_LABELS.find? (fun diseaseLabel =>
    match splitOnStr diseaseLabel "___" with
    | [p0, p1] => p1 == "healthy" && strContains lowerLabel (lowerStr p0)
    | _ => false)

/-- `findClosestDiseaseLabel` (`huggingface.service.ts`): exact match, pepper
short-circuit, separator normalization, `<plant> with <disease>`
decomposition, healthy fallback, in that order. -/
def findClosestDiseaseLabel (label : String) : Option String :=
  let lowerLabel := lowerStr label
  match DISEASE_LABELS.find? (fun diseaseLabel => lowerStr diseaseLabel == lowerLabel) with
  | some exactMatch => some exactMatch
  | none =>
    if pepperTermIn lowerLabel then
      if bacterialTermIn lowerLabel then some "Pepper,_bell___Bacterial_spot"
      else some "Pepper,_bell___healthy"
    else
      let underscoreVariation := replaceFirstStr lowerLabel "_" "___"
      match DISEASE_LABELS.find? (fun diseaseLabel => lowerStr diseaseLabel == underscoreVariation) with
      | some underscoreMatch => some underscoreMatch
      | none =>
        match splitOnStr lowerLabel " with " with
        | [plant, disease] =>
          match DISEASE_LABELS.find? (fun diseaseLabel =>
              strContains (lowerStr diseaseLabel) (jsTrim plant) &&
                strContains (lowerStr diseaseLabel) (jsTrim disease)) with
          | some partialMatch => some partialMatch
          | none => healthyFallback lowerLabel
        | _ => healthyFallback lowerLabel

/-! ## `enhancePrediction` -/

/-- The tail of `enhancePrediction` after the pepper special-casing: exact
taxonomy lookup, then fuzzy matching via `findClosestDiseaseLabel`. -/
def enhanceRest (p : Prediction) (e : EnhancedPrediction) : EnhancedPrediction :=
  if isValidDiseaseLabel p.label then
    { e with formattedLabel := getLabel p.label,
             treatment := some (getDiseaseTreatment p.label) }
  else
    match findClosestDiseaseLabel p.label with
    | some closestLabel =>
      { e with formattedLabel := getLabel closestLabel,
               treatment := some (getDiseaseTreatment closestLabel),
               note := some ((jsOrOptStr e.note "") ++ " Label \"" ++ p.label ++
                 "\" was mapped to \"" ++ closestLabel ++ "\" for treatment information.") }
    | none => e

/-- `enhancePrediction` (`huggingface.service.ts`): spread the prediction,
special-case pepper labels, then attach formatted label and treatment. -/
def enhancePrediction (p : Prediction) : EnhancedPrediction :=
  let e0 : EnhancedPrediction :=
    { label := p.label, score := p.score, note := p.note, formattedLabel := p.label }
  let normalizedLabel := lowerStr p.label
  if strContains normalizedLabel "pepper" || strContains normalizedLabel "capsicum" then
    let hasBacterialDisease := bacterialTermIn normalizedLabel
    if hasBacterialDisease && !(strContains normalizedLabel "pepper,_bell___bacterial_spot") then
      { e0 with formattedLabel := getLabel "Pepper,_bell___Bacterial_spot",
                treatment := some (getDiseaseTreatment "Pepper,_bell___Bacterial_spot"),
                note := some "Detected signs of bacterial disease on pepper plant. Using bell pepper bacterial spot treatment information." }
    else if !(strContains normalizedLabel "pepper,_bell") then
      enhanceRest p { e0 with
        note := some "Detected pepper plant, using bell pepper disease information for treatment." }
    else
      enhanceRest p e0
  else
    enhanceRest p e0

/-! ## `findClosestPlantType` and `extractPlantTypesFromPredictions` -/

/-- Append-if-new, preserving insertion order (JS `Set` iteration order). -/
def addUnique (acc : List String) (x : String) : List String :=
  if acc.contains x then acc else acc ++ [x]

/-- First-occurrence deduplication: JS `Array.from(new Set(xs))`. -/
def dedupFirst (xs : List String) : List String := xs.foldl addUnique []

/-- The distinct plant prefixes of the taxonomy
(`DISEASE_LABELS.map(l => l.split("___")[0])`, deduplicated). -/
def knownPlantTypesTaxonomy : List String :=
  dedupFirst (DISEASE_LABELS.map (fun label => ((splitOnStr label "___").headD label)))

/-- `findClosestPlantType` (`huggingface.service.ts`): pepper short-circuit,
exact match, then bidirectional-substring partial match over taxonomy plant
prefixes. -/
def findClosestPlantType (plantType : String) : Option String :=
  let lowerPlantType := lowerStr plantType
  if pepperTermIn lowerPlantType then some "Pepper,_bell"
  else
    match knownPlantTypesTaxonomy.find? (fun t => lowerStr t == lowerPlantType) with
    | some exactMatch => some exactMatch
    | none =>
      knownPlantTypesTaxonomy.find? (fun t =>
        strContains (lowerStr t) lowerPlantType || strContains lowerPlantType (lowerStr t))

/-- Lower-case letter or whitespace: the `[a-z\s]` character class. -/
def azWs (c : Char) : Bool := ('a' ≤ c && c ≤ 'z') || jsWhitespace c

/-- JS `\w` word characters. -/
def isWordChar (c : Char) : Bool :=
  ('a' ≤ c && c ≤ 'z') || ('A' ≤ c && c ≤ 'Z') || ('0' ≤ c && c ≤ '9') || c = '_'

/-- `label.match(/^([a-z\s]+) with /)`: the captured group, if any.  The
greedy `[a-z\s]+` with backtracking yields the longest non-empty all-`[a-z\s]`
prefix that is immediately followed by `" with "`. -/
def withCapture (label : String) : Option String :=
  let l := label.data
  let cands := (List.range (l.length + 1)).filter (fun i =>
    decide (0 < i) && (l.take i).all azWs && (" with ".data.isPrefixOf (l.drop i)))
  cands.getLast?.map (fun i => String.mk (l.take i))

/-- `label.match(/^healthy ([a-z\s]+)$/)`: the captured group, if any. -/
def healthyCapture (label : String) : Option String :=
  if strStartsWith label "healthy " then
    let s := label.data.drop 8
    if !s.isEmpty && s.all azWs then some (String.mk s) else none
  else none

/-- `label.match(/^pepper,_bell___(.+)$/)`: whether it matches (`.` does not
match line terminators; the capture itself is unused by the code). -/
def pepperBellMatch (label : String) : Bool :=
  strStartsWith label "pepper,_bell___" &&
    (let rest := label.data.drop "pepper,_bell___".length
     !rest.isEmpty && rest.all (fun c => c ≠ '\n' && c ≠ '\r'))

/-- One step of `extractPlantTypesFromPredictions`: what one prediction adds
to the accumulated set of plant types. -/
def extractStep (acc : List String) (p : Prediction) : List String :=
  let label := lowerStr p.label
  match withCapture label with
  | some captured => addUnique acc (jsTrim captured)
  | none =>
    match healthyCapture label with
    | some captured => addUnique acc (jsTrim captured)
    | none =>
      if pepperBellMatch label then addUnique acc "bell pepper"
      else if strContains label "pepper" || strContains label "capsicum" ||
          strContains label "chili" then addUnique acc "pepper"
      else acc

/-- `extractPlantTypesFromPredictions` (`huggingface.service.ts`). -/
def extractPlantTypesFromPredictions (predictions : List Prediction) : List String :=
  predictions.foldl extractStep []

/-! ## Post-classification processing inside `getPredictionFromHuggingFace`

`processDisease` embeds what the function does with the parsed disease-model
output `result` once validation has succeeded, as a function of the
validation's `plantType` and of `result` (lines 134-245 of the service).  A
JS `undefined` or empty `plantType` is falsy: both guards
(`validationResult.plantType && ...` and `if (validationResult.plantType)`)
are skipped. -/

/-- The bacterial-symptom test of the pepper override (lines 142-147): note it
checks only `spot`, `blight`, `bacterial` — not `lesion`. -/
def overrideBacterialIn (l : String) : Bool :=
  strContains l "spot" || strContains l "blight" || strContains l "bacterial"

def processDisease (plantTypeOpt : Option String) (result : List Prediction) :
    List EnhancedPrediction :=
  match plantTypeOpt with
  | none => result.map enhancePrediction
  | some pt0 =>
    if pt0 = "" then result.map enhancePrediction
    else if strContains (lowerStr pt0) "pepper" &&
        result.any (fun pred => overrideBacterialIn (lowerStr pred.label)) then
      [enhancePrediction
        { label := "Pepper,_bell___Bacterial_spot", score := mkRat 85 100,
          note := some "Detected pepper plant with signs of bacterial infection." }]
    else
      let plantType := lowerStr pt0
      let isPepper := strContains plantType "pepper"
      let filteredResults := result.filter (fun prediction =>
        if isPepper then strContains (lowerStr prediction.label) "pepper"
        else strContains (lowerStr prediction.label) plantType)
      if !filteredResults.isEmpty then filteredResults.map enhancePrediction
      else
        let knownPlantTypes := extractPlantTypesFromPredictions result
        if isPepper && !knownPlantTypes.contains "bell pepper" &&
            !knownPlantTypes.contains "pepper" then
          [enhancePrediction
            { label := "Pepper,_bell___healthy", score := mkRat 9 10,
              note := some "Detected pepper plant. No specific diseases identified." }]
        else if !knownPlantTypes.contains plantType then
          match findClosestPlantType plantType with
          | some matchedPlantType =>
            let healthyLabel := matchedPlantType ++ "___healthy"
            [enhancePrediction
              { label := healthyLabel, score := mkRat 9 10,
                note := some ("No specific diseases detected for " ++ pt0 ++
                  ". Showing information for " ++ getLabel healthyLabel ++ ".") }]
          | none =>
            [{ label := "Healthy " ++ pt0,
               formattedLabel := "Healthy " ++ pt0,
               score := mkRat 9 10,
               note := some ("No specific diseases detected for " ++ pt0 ++
                 ". The disease model doesn't have specific training for this plant type."),
               treatment := some "Maintain general plant care practices appropriate for this plant type." }]
        else
          (result.map (fun prediction => { prediction with
            note := some ("Warning: This prediction may not apply to " ++ pt0 ++ ".") })).map
            enhancePrediction

/-! ## Plant validator, step 2 (`validatePlantImageComprehensive`, lines
520-564): rejection of non-plant images from the general model's top-3. -/

/-- Confidence threshold of the validator (`CONFIDENCE_THRESHOLD`). -/
def CONFIDENCE_THRESHOLD : ℚ := mkRat 6 10

/-- `TOP_K_PREDICTIONS`. -/
def TOP_K_PREDICTIONS : Nat := 3

/-- The inline `nonPlantTerms` list of `validatePlantImageComprehensive`. -/
def nonPlantTerms : List String :=
  ["beetle", "insect", "bug", "arthropod", "animal", "mammal", "rodent",
   "acorn", "frog", "snake", "bird"]

/-- `NON_PLANT_EXCLUSION_CATEGORIES` (`src/utils/image.utils.ts`). -/
def NON_PLANT_EXCLUSION_CATEGORIES : List String :=
  ["person", "human", "man", "woman", "child", "boy", "girl", "animal", "dog",
   "cat", "bird", "horse", "cow", "sheep", "goat", "pig", "elephant", "bear",
   "zebra", "giraffe", "building", "vehicle", "car", "truck", "boat",
   "airplane", "furniture", "table", "chair", "bed", "couch", "electronic",
   "computer", "phone", "food", "drink", "clothing", "accessory", "pot",
   "flowerpot"]

/-- Tail of the regex `/^(healthy|diseased)\s+\w+/`: at least one whitespace
character and then a word character. -/
def wsThenWordChar (l : List Char) : Bool :=
  !(l.takeWhile (jsWhitespace ·)).isEmpty &&
    (match l.dropWhile (jsWhitespace ·) with
     | [] => false
     | c :: _ => isWordChar c)

/-- `label.match(/^(healthy|diseased)\s+\w+/)` as a Bool. -/
def matchHealthyDiseased (label : String) : Bool :=
  ("healthy".data.isPrefixOf label.data && wsThenWordChar (label.data.drop 7)) ||
  ("diseased".data.isPrefixOf label.data && wsThenWordChar (label.data.drop 8))

/-- The predicate of the `find` at lines 537-557: a top-K prediction that
names a non-plant with confidence above threshold. -/
def nonPlantReject (pred : Prediction) : Bool :=
  let containsExclusionCategory := NON_PLANT_EXCLUSION_CATEGORIES.any
    (fun category => strContains (lowerStr pred.label) category)
  let containsNonPlantTerm := nonPlantTerms.any (fun term =>
    strContains (lowerStr pred.label) term &&
      !matchHealthyDiseased (lowerStr pred.label))
  (containsExclusionCategory || containsNonPlantTerm) &&
    decide (CONFIDENCE_THRESHOLD < pred.score)

/-- Step 2 of the validator: the short-circuit rejection result, when some
top-3 general-model prediction triggers `nonPlantReject`. -/
def validateNonPlantCheck (generalClassification : List Prediction) :
    Option ValidationResult :=
  ((generalClassification.take TOP_K_PREDICTIONS).find? nonPlantReject).map
    (fun topNonPlantMatch =>
      { isValid := false,
        reason := some ("The image appears to be " ++ lowerStr topNonPlantMatch.label ++
          " rather than a plant.") })

/-! ## Inference client retry loop (`classifyWithModel`, lines 784-846)

The loop is driven entirely by the sequence of HTTP responses; we model that
sequence as a function from the attempt index to the response (status, error
body text, and parsed predictions for a success).  `fetch` itself is assumed
to resolve; the thrown `Hugging Face API error ...` string of a non-ok
response is re-examined by the surrounding `catch`, which retries exactly
when the message contains `"503"` and retries remain.  The returned trace
carries the outcome together with the list of waits (ms) actually slept,
in order. -/

structure HFResponse where
  status : Nat
  errorBody : String := ""
  predictions : List Prediction := []
  deriving Repr

/-- JS `Response.ok`: status in the range 200-299. -/
def respOk (status : Nat) : Bool := 200 ≤ status && status ≤ 299

/-- The message of the error thrown on a non-ok response. -/
def classifyErrMsg (status : Nat) (body : String) : String :=
  "Hugging Face API error in classification (" ++ toString status ++ "): " ++ body

inductive ClassifyOutcome where
  | success (preds : List Prediction)
  | failure (msg : String)
  deriving DecidableEq, Repr

/-- The `while (true)` loop of `classifyWithModel`.  `k` is the number of
retries still allowed (`maxRetries - retries`), so the loop guard
`retries < maxRetries` is `0 < k` and the recursion is structural in `k`;
`currentDelay` doubles after each wait.  With `k = 0` a 503 (or any non-ok
response whose thrown message contains "503") is not retried: the thrown
error is re-raised by the `catch`, i.e. the call fails. -/
def classifyGo (responses : Nat → HFResponse) :
    Nat → Nat → Nat → ClassifyOutcome × List Nat
  | attempt, _, 0 =>
    let r := responses attempt
    if respOk r.status then (.success r.predictions, [])
    else (.failure (classifyErrMsg r.status r.errorBody), [])
  | attempt, currentDelay, k + 1 =>
    let r := responses attempt
    if r.status = 503 then
      let next := classifyGo responses (attempt + 1) (currentDelay * 2) k
      (next.1, currentDelay :: next.2)
    else if respOk r.status then
      (.success r.predictions, [])
    else
      let msg := classifyErrMsg r.status r.errorBody
      if strContains msg "503" then
        let next := classifyGo responses (attempt + 1) (currentDelay * 2) k
        (next.1, currentDelay :: next.2)
      else
        (.failure msg, [])

/-- `classifyWithModel(image, modelId, maxRetries, retryDelay)` as a function
of the response sequence: outcome and performed backoff waits. -/
def classifyWithModel (responses : Nat → HFResponse)
    (maxRetries retryDelay : Nat) : ClassifyOutcome × List Nat :=
  classifyGo responses 0 retryDelay maxRetries

/-! ## Controller record selection (`prediction.controller.ts`, lines 58-80)

The controller sorts the enhanced predictions with the comparator
`parseFloat(b.confidence) - parseFloat(a.confidence)` and persists the first
element's `label` and `description`.  `confidence` and `description` are
never assigned anywhere in the service, so `parseFloat` sees `undefined`
(= NaN); per ECMAScript `SortCompare`, a NaN comparator value is treated as
`+0`, and the sort (stable since ES2019) leaves the order unchanged.  We
model the comparator's value as `Option ℚ` with `none` for NaN. -/

/-- Decimal digits to a natural number. -/
def digitsToNat (l : List Char) : Nat :=
  l.foldl (fun n c => n * 10 + (c.toNat - Char.toNat '0')) 0

/-- JS `parseFloat` on plain decimal literals (optional sign, integer and
fraction digits), `none` for NaN.  Exponent forms are not modelled: every
reachable call in the pipeline receives `undefined` (see
`confidenceCompare`), so only the NaN clause is ever exercised. -/
def parseFloatQ (s : String) : Option ℚ :=
  let l := s.data.dropWhile (jsWhitespace ·)
  let sign : ℚ := match l with
    | '-' :: _ => -1
    | _ => 1
  let l1 := match l with
    | '-' :: t => t
    | '+' :: t => t
    | t => t
  let intPart := l1.takeWhile Char.isDigit
  let rest := l1.dropWhile Char.isDigit
  let fracPart := match rest with
    | '.' :: t => t.takeWhile Char.isDigit
    | _ => []
  if intPart.isEmpty && fracPart.isEmpty then none
  else some (sign * ((digitsToNat intPart : ℚ) +
    (digitsToNat fracPart : ℚ) / ((10 : ℚ) ^ fracPart.length)))

/-- `parseFloat` applied to a possibly-undefined string, `none` for NaN. -/
def parseFloatOpt (o : Option String) : Option ℚ :=
  o.bind parseFloatQ

/-- ECMAScript `SortCompare` of the controller's comparator: the sign of
`parseFloat(b.confidence) - parseFloat(a.confidence)`, with NaN mapped
to `0`. -/
def confidenceCompare (a b : EnhancedPrediction) : Int :=
  match parseFloatOpt b.confidence, parseFloatOpt a.confidence with
  | some x, some y => if x - y < 0 then -1 else if 0 < x - y then 1 else 0
  | _, _ => 0

/-- Stable insertion: `x` goes before the first `y` with `cmp x y ≤ 0`
(elements already in the list came earlier in the original order). -/
def stableInsert (cmp : EnhancedPrediction → EnhancedPrediction → Int)
    (x : EnhancedPrediction) : List EnhancedPrediction → List EnhancedPrediction
  | [] => [x]
  | y :: ys => if cmp x y ≤ 0 then x :: y :: ys else y :: stableInsert cmp x ys

/-- A stable sort by a JS comparator (the concrete algorithm is irrelevant
for the pipeline's lists: the comparator is constantly `0` there, and any
stable sort is then the identity). -/
def stableSortBy (cmp : EnhancedPrediction → EnhancedPrediction → Int) :
    List EnhancedPrediction → List EnhancedPrediction
  | [] => []
  | x :: xs => stableInsert cmp x (stableSortBy cmp xs)

/-- `[...predictions].sort((a, b) => parseFloat(b.confidence) -
parseFloat(a.confidence))[0]`. -/
def selectedDisease (predictions : List EnhancedPrediction) :
    Option EnhancedPrediction :=
  (stableSortBy confidenceCompare predictions).head?

/-- The `disease_name`/`treatment` pair handed to `saveDiagnosis`
(`disease.label || "Unknown"`, `disease.description || "No treatment
information available"`); `none` when `predictions` is empty (the controller
would throw reading `undefined[0].label`). -/
def savedRecord (predictions : List EnhancedPrediction) :
    Option (String × String) :=
  (selectedDisease predictions).map (fun disease =>
    (jsOrStr disease.label "Unknown",
     jsOrOptStr disease.description "No treatment information available"))

/-! ## Helper lemmas -/

/-- Every canonical label round-trips through the matcher (finite check). -/
lemma roundTrip_all :
    DISEASE_LABELS.all (fun e => findClosestDiseaseLabel e == some e) = true := by decide

/-- Every canonical label formats to a non-empty human label and has
non-empty treatment text (finite check). -/
lemma labels_render_nonempty :
    DISEASE_LABELS.all (fun c => !(getLabel c == "") && !(getDiseaseTreatment c == "")) = true := by
  decide

/-- The only canonical labels containing a pepper-family term are the two
bell-pepper entries, and their bacterial-symptom status is as their names
say (finite check). -/
lemma pepper_labels_classified :
    DISEASE_LABELS.all (fun c =>
      !(pepperTermIn (lowerStr c)) ||
      ((c == "Pepper,_bell___Bacterial_spot") && bacterialTermIn (lowerStr c)) ||
      ((c == "Pepper,_bell___healthy") && !(bacterialTermIn (lowerStr c)))) = true := by decide

lemma getLabel_ne_empty {c : String} (hc : c ∈ DISEASE_LABELS) : getLabel c ≠ "" := by
  have h := List.all_eq_true.mp labels_render_nonempty c hc
  simp only [Bool.and_eq_true, Bool.not_eq_true', beq_eq_false_iff_ne, ne_eq] at h
  exact h.1

lemma getDiseaseTreatment_ne_empty {c : String} (hc : c ∈ DISEASE_LABELS) :
    getDiseaseTreatment c ≠ "" := by
  have h := List.all_eq_true.mp labels_render_nonempty c hc
  simp only [Bool.and_eq_true, Bool.not_eq_true', beq_eq_false_iff_ne, ne_eq] at h
  exact h.2

lemma mem_of_isValidDiseaseLabel {c : String} (h : isValidDiseaseLabel c = true) :
    c ∈ DISEASE_LABELS := by
  simpa [isValidDiseaseLabel, List.contains] using List.elem_iff.mp h

/-- A matched label always belongs to the taxonomy: each branch of the
matcher either draws from `DISEASE_LABELS` via `find?` or returns one of the
two bell-pepper canonical labels. -/
lemma findClosestDiseaseLabel_mem {label c : String}
    (h : findClosestDiseaseLabel label = some c) : c ∈ DISEASE_LABELS := by
  have hfb : ∀ {d : String}, healthyFallback (lowerStr label) = some d → d ∈ DISEASE_LABELS := by
    intro d hd
    exact List.mem_of_find?_eq_some hd
  simp only [findClosestDiseaseLabel] at h
  split at h
  next x heq =>
    injection h with h
    subst h
    exact List.mem_of_find?_eq_some heq
  next =>
    split at h
    · split at h <;> (injection h with h; subst h; decide)
    · split at h
      next x heq =>
        injection h with h
        subst h
        exact List.mem_of_find?_eq_some heq
      next =>
        split at h
        · split at h
          next x heq =>
            injection h with h
            subst h
            exact List.mem_of_find?_eq_some heq
          next => exact hfb h
        · exact hfb h

/-- Enhancement never changes `label`, `score`, nor assigns `confidence` or
`description` (the object spread copies them; only `formattedLabel`,
`treatment`, `note` are written). -/
lemma enhanceRest_unchanged (p : Prediction) (e : EnhancedPrediction) :
    (enhanceRest p e).label = e.label ∧ (enhanceRest p e).score = e.score ∧
    (enhanceRest p e).confidence = e.confidence ∧
    (enhanceRest p e).description = e.description := by
  unfold enhanceRest
  split
  · exact ⟨rfl, rfl, rfl, rfl⟩
  · split <;> exact ⟨rfl, rfl, rfl, rfl⟩

lemma enhancePrediction_unchanged (p : Prediction) :
    (enhancePrediction p).label = p.label ∧ (enhancePrediction p).score = p.score ∧
    (enhancePrediction p).confidence = none ∧
    (enhancePrediction p).description = none := by
  simp only [enhancePrediction]
  split_ifs <;>
    first
    | exact ⟨rfl, rfl, rfl, rfl⟩
    | exact enhanceRest_unchanged p _

lemma enhancePrediction_label (p : Prediction) :
    (enhancePrediction p).label = p.label := (enhancePrediction_unchanged p).1

lemma enhancePrediction_score (p : Prediction) :
    (enhancePrediction p).score = p.score := (enhancePrediction_unchanged p).2.1

/-- The controller's comparator is `0` whenever the left operand of the
subtraction is NaN (`confidence` unset). -/
lemma confidenceCompare_eq_zero {b : EnhancedPrediction} (a : EnhancedPrediction)
    (hb : b.confidence = none) : confidenceCompare a b = 0 := by
  simp [confidenceCompare, hb, parseFloatOpt]

/-- A stable sort under a comparator that always answers `0` on the list's
elements is the identity. -/
lemma stableSortBy_eq_self (l : List EnhancedPrediction)
    (h : ∀ e ∈ l, e.confidence = none) : stableSortBy confidenceCompare l = l := by
  induction l with
  | nil => rfl
  | cons x xs ih =>
    have hxs : ∀ e ∈ xs, e.confidence = none := fun e he => h e (List.mem_cons_of_mem _ he)
    simp only [stableSortBy, ih hxs]
    cases xs with
    | nil => rfl
    | cons y ys =>
      have hy : confidenceCompare x y = 0 :=
        confidenceCompare_eq_zero x (h y (List.mem_cons_of_mem _ (List.mem_cons_self _ _)))
      simp [stableInsert, hy]

/-- When an exact or fuzzy taxonomy match exists, the enhancement tail sets a
non-empty formatted label and a non-empty treatment. -/
lemma enhanceRest_fields (p : Prediction) (e : EnhancedPrediction)
    (h : isValidDiseaseLabel p.label = true ∨ (findClosestDiseaseLabel p.label).isSome = true) :
    (enhanceRest p e).formattedLabel ≠ "" ∧
    ∃ t, (enhanceRest p e).treatment = some t ∧ t ≠ "" := by
  unfold enhanceRest
  split
  next hv =>
    have hmem := mem_of_isValidDiseaseLabel hv
    exact ⟨getLabel_ne_empty hmem, getDiseaseTreatment p.label, rfl,
      getDiseaseTreatment_ne_empty hmem⟩
  next hv =>
    have hsome : (findClosestDiseaseLabel p.label).isSome = true := by
      rcases h with h | h
      · exact absurd h hv
      · exact h
    rcases Option.isSome_iff_exists.mp hsome with ⟨c, hc⟩
    have hmem := findClosestDiseaseLabel_mem hc
    rw [hc]
    exact ⟨getLabel_ne_empty hmem, getDiseaseTreatment c, rfl,
      getDiseaseTreatment_ne_empty hmem⟩

/-! ## Claim theorems -/

/-- C2: for every entry `e` of the disease taxonomy, running the label
matcher on that entry's canonical label returns that same entry:
`findClosestDiseaseLabel e = some e` for every `e ∈ DISEASE_LABELS`. -/
theorem exact_label_round_trip (e : String) (h : e ∈ DISEASE_LABELS) :
    findClosestDiseaseLabel e = some e :=
  eq_of_beq (List.all_eq_true.mp roundTrip_all e h)

/-- C2 witness: the round trip at a concrete taxonomy entry. -/
theorem exact_label_round_trip_witness :
    findClosestDiseaseLabel "Apple___Apple_scab" = some "Apple___Apple_scab" :=
  exact_label_round_trip "Apple___Apple_scab" (by decide)

/-- C10: the label matcher is a total function: on every input (the empty
string included) it returns either a taxonomy entry or none — it cannot
raise, and a returned label always belongs to `DISEASE_LABELS`. -/
theorem matcher_total_never_throws :
    (∀ label : String, findClosestDiseaseLabel label = none ∨
      ∃ c, findClosestDiseaseLabel label = some c ∧ c ∈ DISEASE_LABELS)
    ∧ findClosestDiseaseLabel "" = none := by
  refine ⟨fun label => ?_, by decide⟩
  cases hc : findClosestDiseaseLabel label with
  | none => exact Or.inl rfl
  | some c => exact Or.inr ⟨c, rfl, findClosestDiseaseLabel_mem hc⟩

/-- C7: every label containing a pepper-family term ("pepper", "capsicum" or
"chili", case-insensitively) is matched to the bell-pepper bacterial-spot
entry when it also contains a bacterial-symptom keyword ("bacterial",
"spot", "blight" or "lesion"), and to the bell-pepper healthy entry
otherwise; the preceding exact-match step can only return one of those same
two entries for such a label, consistently with this rule. -/
theorem pepper_label_matching (label : String)
    (hp : pepperTermIn (lowerStr label) = true) :
    findClosestDiseaseLabel label =
      some (if bacterialTermIn (lowerStr label) then "Pepper,_bell___Bacterial_spot"
            else "Pepper,_bell___healthy") := by
  simp only [findClosestDiseaseLabel]
  cases hfind : DISEASE_LABELS.find? (fun d => lowerStr d == lowerStr label) with
  | none =>
    simp only [hfind, hp, if_true]
    split <;> rfl
  | some c =>
    have hcmem : c ∈ DISEASE_LABELS := List.mem_of_find?_eq_some hfind
    have hbeq := List.find?_some hfind
    have heq : lowerStr c = lowerStr label := eq_of_beq hbeq
    have hclass := List.all_eq_true.mp pepper_labels_classified c hcmem
    rw [← heq] at hp
    simp only [hp, Bool.not_true, Bool.false_or, Bool.or_eq_true, Bool.and_eq_true,
      beq_iff_eq, Bool.not_eq_true'] at hclass
    rw [← heq]
    rcases hclass with ⟨hcB, hbact⟩ | ⟨hcH, hbact⟩
    · subst hcB
      rw [hbact]
      rfl
    · subst hcH
      rw [hbact]
      rfl

/-- C7 witness: a pepper label with a bacterial keyword at a concrete
input. -/
theorem pepper_label_matching_witness :
    findClosestDiseaseLabel "chili with leaf spots" =
      some (if bacterialTermIn (lowerStr "chili with leaf spots") then "Pepper,_bell___Bacterial_spot"
            else "Pepper,_bell___healthy") :=
  pepper_label_matching "chili with leaf spots" (by decide)

/-- C6 (amended): whenever an exact or fuzzy taxonomy match exists for the
prediction's label, the enhanced prediction carries a non-empty
`formattedLabel` and a non-empty `treatment` (and enhancement, a total
function, never raises).  When no match exists the fields are left alone
(see the counterexample: `treatment` stays absent, with no
"consult an expert" fallback inside enhancement). -/
theorem enhancement_fields_on_match (p : Prediction)
    (h : isValidDiseaseLabel p.label = true ∨ (findClosestDiseaseLabel p.label).isSome = true) :
    (enhancePrediction p).formattedLabel ≠ "" ∧
    ∃ t, (enhancePrediction p).treatment = some t ∧ t ≠ "" := by
  simp only [enhancePrediction]
  split_ifs
  · exact ⟨@getLabel_ne_empty "Pepper,_bell___Bacterial_spot" (by decide),
      getDiseaseTreatment "Pepper,_bell___Bacterial_spot", rfl,
      @getDiseaseTreatment_ne_empty "Pepper,_bell___Bacterial_spot" (by decide)⟩
  · exact enhanceRest_fields p _ h
  · exact enhanceRest_fields p _ h
  · exact enhanceRest_fields p _ h

/-- C6 witness: both fields are set and non-empty at a concrete matched
label. -/
theorem enhancement_fields_on_match_witness :
    (enhancePrediction { label := "Tomato___Late_blight", score := mkRat 77 100 }).formattedLabel ≠ "" ∧
    ∃ t, (enhancePrediction { label := "Tomato___Late_blight", score := mkRat 77 100 }).treatment = some t ∧
      t ≠ "" :=
  enhancement_fields_on_match { label := "Tomato___Late_blight", score := mkRat 77 100 }
    (Or.inl (by decide))

/-- C6 counterexample: for a label with no taxonomy match at all, the
enhanced prediction's `treatment` is absent (`undefined`), not a generic
"consult an expert" string, and `formattedLabel` stays the raw label. -/
theorem unmatched_label_leaves_treatment_absent :
    isValidDiseaseLabel "xyz" = false ∧ findClosestDiseaseLabel "xyz" = none ∧
    (enhancePrediction { label := "xyz", score := mkRat 1 2 }).treatment = none ∧
    (enhancePrediction { label := "xyz", score := mkRat 1 2 }).formattedLabel = "xyz" := by decide

/-- Generalized retry invariant: with every response a 503, the loop with `k`
retries left waits `d, 2d, …, 2^(k-1)·d` and then fails with the 503 error
message built from the final attempt's body. -/
lemma classifyGo_all503 (responses : Nat → HFResponse)
    (h : ∀ n, (responses n).status = 503) :
    ∀ (k attempt d : Nat),
      classifyGo responses attempt d k =
        (.failure (classifyErrMsg 503 (responses (attempt + k)).errorBody),
         (List.range k).map (fun i => d * 2 ^ i)) := by
  intro k
  induction k with
  | zero =>
    intro attempt d
    simp only [classifyGo, h attempt, respOk, Nat.add_zero, List.range_zero, List.map_nil]
    rfl
  | succ k ih =>
    intro attempt d
    simp only [classifyGo, h attempt, eq_self_iff_true, if_true, ih (attempt + 1) (d * 2)]
    have harith : attempt + 1 + k = attempt + (k + 1) := by omega
    simp only [Prod.mk.injEq]
    rw [harith]
    refine ⟨rfl, ?_⟩
    rw [List.range_succ_eq_map, List.map_cons, List.map_map]
    refine congrArg₂ List.cons (by rw [Nat.pow_zero, Nat.mul_one]) ?_
    refine List.map_congr_left fun i _ => ?_
    simp only [Function.comp_apply]
    rw [Nat.pow_succ]
    ring

/-- C3: when the inference endpoint answers 503 on every attempt,
`classifyWithModel` performs exactly `maxRetries` retries, sleeping
`retryDelay, 2·retryDelay, 4·retryDelay, …` before them (1000, 2000, 4000 ms
at the defaults, established by the witness), and then fails with the 503
error instead of retrying further. -/
theorem classify_retries_on_503 (responses : Nat → HFResponse)
    (maxRetries retryDelay : Nat) (h : ∀ n, (responses n).status = 503) :
    classifyWithModel responses maxRetries retryDelay =
      (.failure (classifyErrMsg 503 (responses maxRetries).errorBody),
       (List.range maxRetries).map (fun i => retryDelay * 2 ^ i)) := by
  have := classifyGo_all503 responses h maxRetries 0 retryDelay
  simpa [classifyWithModel] using this

/-- C3 witness: the default configuration (3 retries, 1000 ms) against a
permanently-503 endpoint: waits 1000, 2000, 4000 ms and then raises. -/
theorem classify_retries_on_503_witness :
    classifyWithModel (fun _ => { status := 503, errorBody := "busy" }) 3 1000 =
      (.failure "Hugging Face API error in classification (503): busy",
       [1000, 2000, 4000]) :=
  (classify_retries_on_503 (fun _ => { status := 503, errorBody := "busy" }) 3 1000
    (fun _ => rfl)).trans (by decide)

/-- C9 (amended): a non-2xx response other than 503 raises immediately — no
retry attempt, no backoff delay — provided the thrown error message (which
embeds the response body) does not itself contain "503"; a body containing
"503" is retried under the backoff policy (see the counterexample). -/
theorem non503_error_raises_immediately (responses : Nat → HFResponse)
    (maxRetries retryDelay : Nat)
    (h503 : (responses 0).status ≠ 503)
    (hnotok : respOk (responses 0).status = false)
    (hmsg : strContains (classifyErrMsg (responses 0).status (responses 0).errorBody) "503"
      = false) :
    classifyWithModel responses maxRetries retryDelay =
      (.failure (classifyErrMsg (responses 0).status (responses 0).errorBody), []) := by
  cases maxRetries with
  | zero => simp [classifyWithModel, classifyGo, hnotok]
  | succ k => simp [classifyWithModel, classifyGo, h503, hnotok, hmsg]

/-- C9 witness: a 400 response with an ordinary body raises at once with an
empty wait trace. -/
theorem non503_error_raises_immediately_witness :
    classifyWithModel (fun _ => { status := 400, errorBody := "bad request" }) 3 1000 =
      (.failure "Hugging Face API error in classification (400): bad request", []) :=
  (non503_error_raises_immediately (fun _ => { status := 400, errorBody := "bad request" })
    3 1000 (by decide) (by decide) (by decide)).trans (by decide)

/-- C9 counterexample: a 400 response whose body happens to contain "503" is
retried with the full backoff schedule instead of raising immediately, so
the claim's "regardless of the response body" fails. -/
theorem status400_body503_is_retried :
    classifyWithModel (fun _ => { status := 400, errorBody := "oops 503 inside" }) 3 1000 =
      (.failure "Hugging Face API error in classification (400): oops 503 inside",
       [1000, 2000, 4000]) := by decide

/-- The validator's plant keyword vocabulary (step 3 of
`validatePlantImageComprehensive`); it serves as the "known plant" vocabulary
in the claim's reading of the healthy-plant exemption. -/
def plantKeywords : List String :=
  ["leaf", "plant", "tree", "flower", "fruit", "vegetable", "apple", "tomato",
   "grape", "strawberry", "pomegranate", "potato", "pepper", "capsicum",
   "chili", "corn", "bean", "cucumber", "eggplant", "lettuce", "peach",
   "orange", "lemon", "cherry", "blueberry"]

/-- The claim's exemption: the label is (case-insensitively) exactly
`healthy <word>` and the word names a known plant. -/
def healthyKnownPlantLabel (label : String) : Bool :=
  match splitOnStr (lowerStr label) " " with
  | ["healthy", w] => plantKeywords.contains w
  | _ => false

/-- C4's condition as the claim states it: some top-3 prediction scores above
the threshold and matches the exclusion vocabulary or an isolated non-plant
term, except when the label is a healthy-known-plant pattern. -/
def claimRejectCond (general : List Prediction) : Bool :=
  (general.take TOP_K_PREDICTIONS).any (fun pred =>
    decide (CONFIDENCE_THRESHOLD < pred.score) &&
    (NON_PLANT_EXCLUSION_CATEGORIES.any (fun category =>
        strContains (lowerStr pred.label) category) ||
      nonPlantTerms.any (fun term => strContains (lowerStr pred.label) term)) &&
    !healthyKnownPlantLabel pred.label)

/-- C4 counterexample: `healthy potato` at score 0.9 is a healthy-known-plant
label, so the claim says it must not be rejected; the code rejects it (the
exclusion-vocabulary check has no healthy-pattern exemption, and "potato"
contains the excluded term "pot"). -/
theorem healthy_potato_is_rejected :
    (validateNonPlantCheck [{ label := "healthy potato", score := mkRat 9 10 }]).isSome = true ∧
    claimRejectCond [{ label := "healthy potato", score := mkRat 9 10 }] = false := by decide

/-- C4 (amended): the step-2 check rejects (isValid = false, with a reason
naming the offending prediction) exactly when some top-3 prediction scores
strictly above 0.6 and its lower-cased label either contains a non-plant
exclusion-vocabulary term (with no exemption), or contains an isolated
non-plant term while not starting with `healthy`/`diseased` plus whitespace
and a word character (the exemption does not test whether the word is a
known plant). -/
theorem validator_rejects_iff (general : List Prediction) :
    ((validateNonPlantCheck general).isSome ↔
      ∃ pred ∈ general.take TOP_K_PREDICTIONS, nonPlantReject pred = true)
    ∧ ∀ vr ∈ validateNonPlantCheck general, vr.isValid = false ∧
        ∃ pred ∈ general.take TOP_K_PREDICTIONS, nonPlantReject pred = true ∧
          vr.reason = some ("The image appears to be " ++ lowerStr pred.label ++
            " rather than a plant.") := by
  constructor
  · rw [validateNonPlantCheck]
    cases hfind : (general.take TOP_K_PREDICTIONS).find? nonPlantReject with
    | none =>
      simp only [Option.map_none', Option.isSome_none, Bool.false_eq_true, false_iff]
      intro hex
      rcases hex with ⟨pred, hmem, hpred⟩
      exact absurd hpred (by simpa using List.find?_eq_none.mp hfind pred hmem)
    | some pred =>
      simp only [Option.map_some', Option.isSome_some, true_iff]
      
      exact ⟨pred, List.mem_of_find?_eq_some hfind, List.find?_some hfind⟩
  · intro vr hvr
    rw [validateNonPlantCheck, Option.mem_def] at hvr
    cases hfind : (general.take TOP_K_PREDICTIONS).find? nonPlantReject with
    | none => rw [hfind] at hvr; exact absurd hvr (by simp)
    | some pred =>
      rw [hfind, Option.map_some'] at hvr
      injection hvr with hvr
      subst hvr
      exact ⟨rfl, pred, List.mem_of_find?_eq_some hfind, List.find?_some hfind, rfl⟩

/-- C8 (amended): if the validated plant type contains "pepper" and some
prediction's label contains one of the override's bacterial keywords
("spot", "blight", "bacterial" — not "lesion", see the counterexample), the
pipeline short-circuits to the single synthetic bacterial-spot prediction at
score 0.85. -/
theorem pepper_override (pt : String) (result : List Prediction)
    (hpt : strContains (lowerStr pt) "pepper" = true)
    (hbact : result.any (fun pred => overrideBacterialIn (lowerStr pred.label)) = true) :
    processDisease (some pt) result =
      [enhancePrediction
        { label := "Pepper,_bell___Bacterial_spot", score := mkRat 85 100,
          note := some "Detected pepper plant with signs of bacterial infection." }] := by
  have hne : pt ≠ "" := by
    intro h
    subst h
    exact absurd hpt (by decide)
  simp only [processDisease, if_neg hne, hpt, hbact, Bool.and_self, if_true]

/-- C8 witness: a concrete pepper plant type with a bacterial-keyword
prediction yields exactly the synthetic bacterial-spot result. -/
theorem pepper_override_witness :
    processDisease (some "Bell Pepper") [{ label := "Tomato___Bacterial_spot", score := mkRat 8 10 }] =
      [enhancePrediction
        { label := "Pepper,_bell___Bacterial_spot", score := mkRat 85 100,
          note := some "Detected pepper plant with signs of bacterial infection." }] :=
  pepper_override "Bell Pepper" [{ label := "Tomato___Bacterial_spot", score := mkRat 8 10 }]
    (by decide) (by decide)

/-- `Char.ofNat` of a valid codepoint decodes back to it. -/
lemma char_toNat_ofNat {n : Nat} (h : n.isValidChar) : (Char.ofNat n).toNat = n := by
  simp [Char.ofNat, dif_pos h, Char.ofNatAux, Char.toNat, UInt32.toNat, BitVec.toNat_ofNatLt]

/-- ASCII lower-casing is idempotent. -/
lemma char_toLower_idem (c : Char) : c.toLower.toLower = c.toLower := by
  unfold Char.toLower
  by_cases h : c.toNat ≥ 65 ∧ c.toNat ≤ 90
  · rw [if_pos h]
    have hv : (c.toNat + 32).isValidChar := Or.inl (by omega)
    rw [char_toNat_ofNat hv]
    rw [if_neg (by omega)]
  · rw [if_neg h, if_neg h]

/-- `toLowerCase` is idempotent (the pipeline lower-cases some strings
twice). -/
lemma lowerStr_idem (s : String) : lowerStr (lowerStr s) = lowerStr s := by
  unfold lowerStr
  simp only [List.map_map]
  exact congrArg String.mk (List.map_congr_left fun c _ => char_toLower_idem c)

/-- C5 counterexample: with validated type "Bell Pepper" and disease output
`[Corn___Northern_Leaf_Blight @ 0.6]` every hypothesis of the claim holds
(no label contains the validated type, the implied plant-type set is empty,
and a taxonomy plant type fuzzy-matches), yet the pipeline returns the
pepper-override bacterial prediction at 0.85, not the claimed healthy
prediction at 0.9. -/
theorem pepper_override_preempts_healthy_fallback :
    strContains (lowerStr "Corn___Northern_Leaf_Blight") (lowerStr "Bell Pepper") = false ∧
    extractPlantTypesFromPredictions
      [{ label := "Corn___Northern_Leaf_Blight", score := mkRat 6 10 }] = [] ∧
    findClosestPlantType (lowerStr "Bell Pepper") = some "Pepper,_bell" ∧
    (processDisease (some "Bell Pepper")
        [{ label := "Corn___Northern_Leaf_Blight", score := mkRat 6 10 }]).map
      (fun e => (e.label, e.score)) =
      [("Pepper,_bell___Bacterial_spot", mkRat 85 100)] := by decide

/-- C5 (amended): whenever the pepper override does not fire, the validated
plant type is non-empty, plant-type filtering yields nothing, the implied
plant-type set does not contain the validated type, and a taxonomy plant
type fuzzy-matches the validated type, the pipeline returns exactly one
synthesized `<matched>___healthy` prediction at score 0.9. -/
theorem healthy_fallback_synthesis (pt : String) (result : List Prediction) (m : String)
    (hover : (strContains (lowerStr pt) "pepper" &&
      result.any (fun pred => overrideBacterialIn (lowerStr pred.label))) = false)
    (hfilter : result.filter (fun prediction =>
      if strContains (lowerStr pt) "pepper" = true
      then strContains (lowerStr prediction.label) "pepper"
      else strContains (lowerStr prediction.label) (lowerStr pt)) = [])
    (himplied : (extractPlantTypesFromPredictions result).contains (lowerStr pt) = false)
    (hclosest : findClosestPlantType (lowerStr pt) = some m)
    (hne : pt ≠ "") :
    ∃ e, processDisease (some pt) result = [e] ∧
      e.label = m ++ "___healthy" ∧ e.score = mkRat 9 10 := by
  have hsingle : ∀ P : Prediction, P.label = m ++ "___healthy" → P.score = mkRat 9 10 →
      ∃ e, [enhancePrediction P] = [e] ∧ e.label = m ++ "___healthy" ∧ e.score = mkRat 9 10 :=
    fun P h1 h2 =>
      ⟨enhancePrediction P, rfl, by rw [enhancePrediction_label, h1],
        by rw [enhancePrediction_score, h2]⟩
  simp only [processDisease, if_neg hne, hover, Bool.false_eq_true, if_false, hfilter,
    List.isEmpty_nil, Bool.not_true, himplied, Bool.not_false, if_true, hclosest]
  by_cases hpep : strContains (lowerStr pt) "pepper" = true
  · by_cases hbp : (extractPlantTypesFromPredictions result).contains "bell pepper" = true
    · simp only [hpep, hbp, Bool.not_true, Bool.and_false, Bool.false_and,
        Bool.false_eq_true, if_false]
      exact hsingle _ rfl rfl
    · by_cases hpp : (extractPlantTypesFromPredictions result).contains "pepper" = true
      · simp only [hpep, hpp, Bool.not_true, Bool.and_false, Bool.false_eq_true, if_false]
        exact hsingle _ rfl rfl
      · have hM : m = "Pepper,_bell" := by
          have hclosed : findClosestPlantType (lowerStr pt) = some "Pepper,_bell" := by
            unfold findClosestPlantType
            rw [if_pos (by simp [pepperTermIn, lowerStr_idem, hpep])]
          rw [hclosed] at hclosest
          exact (Option.some_inj.mp hclosest).symm
        simp only [hpep, eq_false_of_ne_true hbp, eq_false_of_ne_true hpp, Bool.not_false,
          Bool.and_self, Bool.true_and, Bool.and_true, if_true]
        subst hM
        exact hsingle _ rfl rfl
  · simp only [eq_false_of_ne_true hpep, Bool.false_and, Bool.false_eq_true, if_false]
    exact hsingle _ rfl rfl

set_option maxRecDepth 4000 in
/-- C5 witness: the spec's own example — disease output
`[Corn___Common_rust @ 0.6]` with validated type "tomato" synthesizes the
single `Tomato___healthy` prediction at 0.9. -/
theorem healthy_fallback_synthesis_witness :
    ∃ e, processDisease (some "tomato")
        [{ label := "Corn___Common_rust", score := mkRat 6 10 }] = [e] ∧
      e.label = "Tomato" ++ "___healthy" ∧ e.score = mkRat 9 10 :=
  healthy_fallback_synthesis "tomato" [{ label := "Corn___Common_rust", score := mkRat 6 10 }]
    "Tomato" (by decide) (by decide) (by decide) (by decide) (by decide)

/-- C1 (code bug): the controller sorts by the never-assigned `confidence`
field (`parseFloat(undefined)` is NaN, which ECMAScript `SortCompare` treats
as `+0`, so the stable sort leaves the order unchanged) and reads the
never-assigned `description` field, so the persisted record takes the FIRST
prediction's label — not the highest-score one — and always the fallback
treatment text.  Concretely: with two filtered predictions at scores 0.3 and
0.9, the saved name is the 0.3 one and the saved treatment is the constant
fallback, never the prediction's treatment.  In general, for any enhanced
predictions as the pipeline produces them (`confidence`/`description`
unset), the record is the first element's label with the fallback text. -/
theorem first_prediction_and_fallback_persisted :
    ((processDisease (some "tomato")
        [{ label := "Tomato___Bacterial_spot", score := mkRat 3 10 },
         { label := "Tomato___Late_blight", score := mkRat 9 10 }]).map
      (fun e => (e.label, e.score)) =
      [("Tomato___Bacterial_spot", mkRat 3 10), ("Tomato___Late_blight", mkRat 9 10)]) ∧
    savedRecord (processDisease (some "tomato")
        [{ label := "Tomato___Bacterial_spot", score := mkRat 3 10 },
         { label := "Tomato___Late_blight", score := mkRat 9 10 }]) =
      some ("Tomato___Bacterial_spot", "No treatment information available") ∧
    getDiseaseTreatment "Tomato___Late_blight" ≠ "No treatment information available" ∧
    ∀ preds : List EnhancedPrediction,
      (∀ e ∈ preds, e.confidence = none ∧ e.description = none) →
      savedRecord preds = preds.head?.map
        (fun d => (jsOrStr d.label "Unknown", "No treatment information available")) := by
  refine ⟨by decide, by decide, by decide, ?_⟩
  intro preds h
  unfold savedRecord selectedDisease
  rw [stableSortBy_eq_self preds (fun e he => (h e he).1)]
  cases preds with
  | nil => rfl
  | cons d rest =>
    simp only [List.head?_cons, Option.map_some']
    have hd := (h d (List.mem_cons_self _ _)).2
    simp [jsOrOptStr, hd]

/-- C8 counterexample: the spec's bacterial-symptom keyword set includes
"lesion", but the override checks only spot/blight/bacterial: a pepper plant
type with a `leaf lesion` prediction does NOT short-circuit to the 0.85
bacterial-spot result — the pipeline instead synthesizes the healthy
prediction at 0.9. -/
theorem lesion_does_not_trigger_override :
    bacterialTermIn (lowerStr "leaf lesion") = true ∧
    (processDisease (some "Bell Pepper") [{ label := "leaf lesion", score := mkRat 7 10 }]).map
      (fun e => (e.label, e.score)) =
      [("Pepper,_bell___healthy", mkRat 9 10)] := by decide
